import Mathlib

/-!
Shallow embedding of `crewai_marketing_strategy.py`, a single-script CrewAI
marketing-strategy pipeline.  Pure string-formatting functions of the script
become Lean functions; the effectful `main` becomes a function from its
parameters and an environment oracle (configuration validation result, LLM
outputs, kickoff/write failures, clock readings) to an event trace and an
outcome.  Python floats appear in the script only as integral dollar budgets
formatted with `,.0f`; the embedding represents them as `Nat`.
-/

namespace MarketingStrategy

/-- Embedding of Python `"=" * n` (and `"0" * n` for zero padding): the string
`s` repeated `n` times. -/
def repeatStr (s : String) (n : Nat) : String :=
  String.join (List.replicate n s)

/-- Zero-pad the decimal representation of `n` to `width` characters, as
`strftime` does for `%Y`, `%m`, `%d`, `%H`, `%M`, `%S` fields. -/
def padZeros (width : Nat) (n : Nat) : String :=
  repeatStr "0" (width - (Nat.repr n).length) ++ Nat.repr n

/-- Insert a comma after every third character of a reversed digit list:
the core of Python's `,` format-spec thousands grouping, working from the
least-significant digit. -/
def groupRev : List Char → List Char
  | [] => []
  | [a] => [a]
  | [a, b] => [a, b]
  | [a, b, c] => [a, b, c]
  | a :: b :: c :: d :: rest => a :: b :: c :: ',' :: groupRev (d :: rest)

/-- Embedding of Python `f"{n:,.0f}"` on a nonnegative integral value: the
decimal digits of `n` with thousands separated by commas and no decimal
point. -/
def commaFormat (n : Nat) : String :=
  String.mk ((groupRev (Nat.repr n).data.reverse).reverse)

/-- Embedding of Python `str.lower()` restricted to ASCII text:
`Char.toLower` lowercases exactly the ASCII uppercase letters, which is
what `str.lower()` does on ASCII strings.  Python's `str.lower()` also
lowercases non-ASCII letters, which this character-level embedding does
not cover, so the filename theorem is stated under an ASCII product-name
hypothesis and asserts nothing about non-ASCII names. -/
def pyLower (s : String) : String :=
  String.mk (s.data.map Char.toLower)

/-- Embedding of Python `str.replace(' ', '_')`: the pattern is a single
character, so the replacement acts character by character. -/
def replaceSpaces (s : String) : String :=
  String.mk (s.data.map (fun c => if c = ' ' then '_' else c))

/-! ### Embedding of Python `float(s)` argument parsing

Whether `float(s)` raises `ValueError` is a purely syntactic question,
embedded faithfully below as `pyFloatAccepts`: the CPython float-literal
grammar over ASCII arguments — optional surrounding ASCII whitespace, an
optional sign, then either a number (`digitpart`, optionally with a
fractional part and an exponent, with single underscores allowed between
digits) or a case-insensitive `inf`, `infinity` or `nan`.  The *value* of
an accepted argument is a binary64 float; the embedding's integral `Nat`
budget represents the plain nonnegative integer literals among them
(`pyFloatValue`), and accepted arguments outside that range (fractions,
exponents, signs, infinities) are recorded by `runScript` as runs whose
float budget the model does not represent — never as a `ValueError`. -/

def isAsciiWs (c : Char) : Bool :=
  c = ' ' || c = '\t' || c = '\n' || c = '\r' || c.toNat = 11 || c.toNat = 12

/-- Drop leading ASCII whitespace. -/
def dropWs : List Char → List Char
  | [] => []
  | c :: cs => if isAsciiWs c then dropWs cs else c :: cs

/-- After one digit has been read, consume the rest of a `digitpart`:
further digits, with single underscores allowed only between digits. -/
def digitTail : List Char → List Char
  | [] => []
  | c :: cs =>
    if c.isDigit then digitTail cs
    else if c = '_' then
      match cs with
      | d :: ds => if d.isDigit then digitTail ds else c :: cs
      | [] => c :: cs
    else c :: cs

/-- Consume a `digitpart` (at least one digit, single underscores between
digits); `none` when no digit starts the input. -/
def parseDigitpart : List Char → Option (List Char)
  | [] => none
  | c :: cs => if c.isDigit then some (digitTail cs) else none

/-- Consume an optional exponent `(e|E) sign? digitpart`. -/
def parseExp : List Char → Option (List Char)
  | [] => some []
  | c :: cs =>
    if c = 'e' || c = 'E' then
      match cs with
      | [] => none
      | d :: ds => if d = '+' || d = '-' then parseDigitpart ds else parseDigitpart (d :: ds)
    else some (c :: cs)

/-- Consume a number: `digitpart [. digitpart?] exp?` or `. digitpart exp?`. -/
def parseNumber (l : List Char) : Option (List Char) :=
  match parseDigitpart l with
  | some rest =>
    match rest with
    | '.' :: rest2 =>
      match parseDigitpart rest2 with
      | some rest3 => parseExp rest3
      | none => parseExp rest2
    | _ => parseExp rest
  | none =>
    match l with
    | '.' :: rest2 =>
      match parseDigitpart rest2 with
      | some rest3 => parseExp rest3
      | none => none
    | _ => none

/-- Case-insensitive `inf`, `infinity` or `nan`. -/
def parseInfNan (l : List Char) : Bool :=
  let low := l.map Char.toLower
  low = ['i', 'n', 'f'] || low = ['i', 'n', 'f', 'i', 'n', 'i', 't', 'y'] ||
    low = ['n', 'a', 'n']

/-- The argument characters with surrounding ASCII whitespace stripped. -/
def stripFloatArg (s : String) : List Char :=
  (dropWs (dropWs s.data).reverse).reverse

/-- Whether Python `float(s)` accepts `s` (ASCII arguments): `false` means
`float(s)` raises `ValueError`. -/
def pyFloatAccepts (s : String) : Bool :=
  let l := stripFloatArg s
  let body := match l with
    | c :: cs => if c = '+' || c = '-' then cs else l
    | [] => l
  parseInfNan body ||
    (match parseNumber body with
      | some [] => true
      | _ => false)

def digitsVal (l : List Char) : Nat :=
  l.foldl (fun acc c => 10 * acc + (c.toNat - 48)) 0

/-- The parsed value of an accepted argument, when it is a plain
nonnegative integer literal (digits with optional underscores, optional
leading `+`) — the budgets the integral `Nat` model represents.  Accepted
arguments of any other form parse to floats outside that model. -/
def pyFloatValue (s : String) : Option Nat :=
  let l := match stripFloatArg s with
    | '+' :: cs => cs
    | l => l
  if pyFloatAccepts s && !l.isEmpty && l.all (fun c => c.isDigit || c == '_') then
    some (digitsVal (l.filter (fun c => c != '_')))
  else none

/-! ## Tools (lines 37–118 of the script)

Each `@tool` function returns an f-string built from its arguments and
performs nothing else; the embedding is the same concatenation. -/

/-- Tool `research_market_trends(product_category, target_audience)`. -/
def research_market_trends (product_category : String) (target_audience : String) : String :=
  "\n    Research task: Analyze market trends for " ++ product_category ++
  " targeting " ++ target_audience ++
  ".\n    \n    Please research and provide:\n    1. Current market size and growth projections\n    2. Key consumer trends and preferences\n    3. Emerging market opportunities\n    4. Seasonal patterns and buying behaviors\n    5. Demographic and psychographic insights\n    6. Market challenges and barriers\n    \n    Focus on actionable insights for marketing strategy development.\n    "

/-- Tool `analyze_competitors(product_name, product_category)`. -/
def analyze_competitors (product_name : String) (product_category : String) : String :=
  "\n    Research task: Analyze competitors for " ++ product_name ++
  " in " ++ product_category ++
  ".\n    \n    Please research and provide:\n    1. Main competitors and their market positioning\n    2. Competitor marketing messages and value propositions\n    3. Competitor channel strategies (social media, advertising, content)\n    4. Competitor pricing strategies\n    5. Competitor strengths and weaknesses\n    6. Market gaps and differentiation opportunities\n    \n    Focus on insights that inform competitive marketing strategy.\n    "

/-- Tool `research_marketing_channels(product_category, target_audience)`. -/
def research_marketing_channels (product_category : String) (target_audience : String) : String :=
  "\n    Research task: Identify best marketing channels for " ++ product_category ++
  " targeting " ++ target_audience ++
  ".\n    \n    Please research and provide:\n    1. Most effective channels for this audience (social media, email, SEO, paid ads, etc.)\n    2. Channel performance benchmarks and costs\n    3. Best practices for each channel\n    4. Channel integration strategies\n    5. Emerging channel opportunities\n    6. Channel-specific content requirements\n    \n    Focus on channels that deliver the best ROI for this product and audience.\n    "

/-- Tool `calculate_marketing_metrics(budget, channels)`; the budget is
rendered by the `,.0f` format spec, embedded as `commaFormat`. -/
def calculate_marketing_metrics (budget : Nat) (channels : String) : String :=
  "\n    Analysis task: Calculate marketing metrics for $" ++ commaFormat budget ++
  " budget across " ++ channels ++
  ".\n    \n    Please provide:\n    1. Budget allocation recommendations per channel\n    2. Expected reach and impressions\n    3. Estimated cost per acquisition (CPA)\n    4. Projected conversion rates\n    5. ROI estimates and benchmarks\n    6. Performance tracking recommendations\n    \n    Use industry benchmarks and realistic projections.\n    "

/-! ## Data model of the crewai objects the script builds

A crewai `Agent` is embedded by the constructor arguments the script passes;
the `tools` field records the names of the `@tool` functions handed to the
agent. -/

structure Agent where
  role : String
  goal : String
  backstory : String
  tools : List String
  verbose : Bool
  allow_delegation : Bool
deriving DecidableEq, Repr

structure CrewTask where
  description : String
  agent : Agent
  expected_output : String
deriving DecidableEq, Repr

structure Crew where
  agents : List Agent
  tasks : List CrewTask
  verbose : Bool
  process : String
deriving DecidableEq, Repr

/-! ## Agent definitions (lines 125–219 of the script) -/

/-- `create_market_research_agent(product_name, product_category)`. -/
def create_market_research_agent (product_name : String) (product_category : String) : Agent :=
  { role := "Market Research Analyst"
    goal := "Conduct comprehensive market research for " ++ product_name ++ " in the " ++
      product_category ++ " category. " ++
      "Analyze target market, competitors, customer personas, and market opportunities. " ++
      "Provide actionable insights that inform the marketing strategy."
    backstory := "You are a senior market research analyst with 10+ years of experience in " ++
      product_category ++ " markets. " ++
      "You excel at identifying market trends, understanding consumer behavior, and analyzing competitive landscapes. " ++
      "You have a proven track record of uncovering insights that drive successful marketing strategies. " ++
      "You use data-driven approaches and always validate your findings with multiple sources. " ++
      "Your research is thorough, accurate, and focused on actionable insights for marketing teams."
    tools := ["research_market_trends", "analyze_competitors"]
    verbose := true
    allow_delegation := false }

/-- `create_content_strategist_agent(product_name, target_audience)`. -/
def create_content_strategist_agent (product_name : String) (target_audience : String) : Agent :=
  { role := "Content Strategist"
    goal := "Develop compelling messaging, content themes, and brand voice for " ++ product_name ++
      " targeting " ++ target_audience ++
      ". Create content strategies that resonate with the target audience " ++
      "and differentiate the product in the market."
    backstory := "You are an expert content strategist specializing in " ++ target_audience ++ " marketing. " ++
      "You have a deep understanding of how to craft messages that connect with audiences emotionally and logically. " ++
      "You excel at developing brand voices, content themes, and messaging frameworks that drive engagement and conversions. " ++
      "You understand the nuances of different content formats and how to adapt messaging across channels. " ++
      "Your strategies are creative, data-informed, and aligned with business objectives."
    tools := ["research_market_trends"]
    verbose := true
    allow_delegation := false }

/-- `create_channel_specialist_agent(product_category, target_audience)`. -/
def create_channel_specialist_agent (product_category : String) (target_audience : String) : Agent :=
  { role := "Marketing Channel Specialist"
    goal := "Identify the most effective marketing channels and tactics for " ++ product_category ++
      " targeting " ++ target_audience ++
      ". Recommend channel strategies that maximize reach, engagement, and ROI."
    backstory := "You are a marketing channel expert with extensive experience in " ++ product_category ++ " marketing. " ++
      "You understand the strengths and limitations of each marketing channel (social media, email, SEO, PPC, content, etc.). " ++
      "You know which channels work best for different audiences and how to integrate multiple channels effectively. " ++
      "You stay current with channel trends, algorithm changes, and emerging opportunities. " ++
      "Your recommendations are based on data, industry best practices, and proven results."
    tools := ["research_marketing_channels"]
    verbose := true
    allow_delegation := false }

/-- `create_campaign_planner_agent(product_name, target_audience)`. -/
def create_campaign_planner_agent (product_name : String) (target_audience : String) : Agent :=
  { role := "Campaign Planner"
    goal := "Create detailed, actionable marketing campaign plans for " ++ product_name ++
      " targeting " ++ target_audience ++ ". " ++
      "Develop campaign timelines, tactics, and execution strategies that align with marketing objectives."
    backstory := "You are a strategic campaign planner with expertise in developing end-to-end marketing campaigns. " ++
      "You excel at translating marketing strategies into actionable campaign plans with clear timelines and milestones. " ++
      "You understand how to sequence activities, coordinate across channels, and optimize for maximum impact. " ++
      "You create realistic timelines, identify dependencies, and plan for contingencies. " ++
      "Your campaigns are well-structured, measurable, and designed for success."
    tools := []
    verbose := true
    allow_delegation := false }

/-- `create_budget_analyst_agent(product_category)`. -/
def create_budget_analyst_agent (product_category : String) : Agent :=
  { role := "Marketing Budget Analyst"
    goal := "Allocate marketing budget effectively across channels and activities for " ++ product_category ++
      " products. " ++
      "Calculate ROI projections, cost estimates, and provide budget optimization recommendations."
    backstory := "You are a marketing finance expert specializing in budget allocation and ROI analysis for " ++
      product_category ++ " markets. " ++
      "You have deep knowledge of marketing costs, performance benchmarks, and ROI calculations. " ++
      "You excel at optimizing budget allocation to maximize marketing effectiveness. " ++
      "You understand the relationship between spend and results across different channels and tactics. " ++
      "Your budget recommendations are data-driven, realistic, and focused on achieving marketing objectives efficiently."
    tools := ["calculate_marketing_metrics"]
    verbose := true
    allow_delegation := false }

/-! ## Task definitions (lines 226–354 of the script) -/

/-- `create_market_research_task(market_research_agent, product_name, product_category, target_audience, product_description)`. -/
def create_market_research_task (market_research_agent : Agent) (product_name : String)
    (product_category : String) (target_audience : String) (product_description : String) : CrewTask :=
  { description := "Conduct comprehensive market research for " ++ product_name ++
      " (" ++ product_category ++ "). " ++
      "Product description: " ++ product_description ++ ". " ++
      "Target audience: " ++ target_audience ++ ". " ++
      "\n\nYour research should include:\n" ++
      "1. Target market analysis (size, demographics, psychographics, behaviors)\n" ++
      "2. Competitive landscape analysis (main competitors, their positioning, strengths/weaknesses)\n" ++
      "3. Customer persona development (2-3 detailed personas)\n" ++
      "4. Market opportunities and gaps\n" ++
      "5. Key market trends affecting this product category\n" ++
      "6. Market challenges and barriers to entry\n\n" ++
      "Provide actionable insights that will inform the marketing strategy."
    agent := market_research_agent
    expected_output := "A comprehensive market research report including target market analysis, " ++
      "competitive landscape, customer personas, market opportunities, trends, and challenges " ++
      "for " ++ product_name ++ " in the " ++ product_category ++ " category." }

/-- `create_content_strategy_task(content_strategist_agent, product_name, product_description, target_audience, unique_value_proposition)`. -/
def create_content_strategy_task (content_strategist_agent : Agent) (product_name : String)
    (product_description : String) (target_audience : String) (unique_value_proposition : String) : CrewTask :=
  { description := "Develop a comprehensive content strategy for " ++ product_name ++ ". " ++
      "Product: " ++ product_description ++ ". " ++
      "Target audience: " ++ target_audience ++ ". " ++
      "Unique value proposition: " ++ unique_value_proposition ++ ". " ++
      "\n\nYour content strategy should include:\n" ++
      "1. Core messaging framework (key messages, value propositions, differentiators)\n" ++
      "2. Brand voice and tone guidelines\n" ++
      "3. Content themes and topics (5-7 main themes)\n" ++
      "4. Content formats and types (blog posts, videos, social media, etc.)\n" ++
      "5. Content pillars that support marketing objectives\n" ++
      "6. Messaging variations for different channels and audiences\n\n" ++
      "Ensure messaging resonates with the target audience and differentiates the product."
    agent := content_strategist_agent
    expected_output := "A comprehensive content strategy document including messaging framework, " ++
      "brand voice, content themes, formats, and channel-specific messaging for " ++ product_name ++ "." }

/-- `create_channel_strategy_task(channel_specialist_agent, product_name, product_category, target_audience, marketing_objectives)`. -/
def create_channel_strategy_task (channel_specialist_agent : Agent) (product_name : String)
    (product_category : String) (target_audience : String) (marketing_objectives : String) : CrewTask :=
  { description := "Develop a marketing channel strategy for " ++ product_name ++
      " (" ++ product_category ++ "). " ++
      "Target audience: " ++ target_audience ++ ". " ++
      "Marketing objectives: " ++ marketing_objectives ++ ". " ++
      "\n\nYour channel strategy should include:\n" ++
      "1. Recommended marketing channels (prioritized list with rationale)\n" ++
      "2. Channel-specific tactics and approaches\n" ++
      "3. Channel integration strategy (how channels work together)\n" ++
      "4. Channel performance expectations and KPIs\n" ++
      "5. Channel-specific content requirements\n" ++
      "6. Emerging channel opportunities\n\n" ++
      "Focus on channels that best reach the target audience and achieve marketing objectives."
    agent := channel_specialist_agent
    expected_output := "A comprehensive channel strategy document including recommended channels, " ++
      "tactics, integration approach, KPIs, and content requirements for " ++ product_name ++ "." }

/-- `create_campaign_plan_task(campaign_planner_agent, product_name, target_audience, campaign_timeline, marketing_objectives)`. -/
def create_campaign_plan_task (campaign_planner_agent : Agent) (product_name : String)
    (target_audience : String) (campaign_timeline : String) (marketing_objectives : String) : CrewTask :=
  { description := "Create a detailed marketing campaign plan for " ++ product_name ++
      " targeting " ++ target_audience ++ ". " ++
      "Campaign timeline: " ++ campaign_timeline ++ ". " ++
      "Marketing objectives: " ++ marketing_objectives ++ ". " ++
      "\n\nYour campaign plan should include:\n" ++
      "1. Campaign phases and timeline (with specific dates/milestones)\n" ++
      "2. Campaign tactics and activities for each phase\n" ++
      "3. Channel-specific campaign activities\n" ++
      "4. Success metrics and KPIs for each phase\n" ++
      "5. Resource requirements and dependencies\n" ++
      "6. Risk mitigation strategies\n" ++
      "7. Campaign launch checklist\n\n" ++
      "Create an actionable, realistic campaign plan that can be executed."
    agent := campaign_planner_agent
    expected_output := "A detailed marketing campaign plan including phases, timeline, tactics, " ++
      "metrics, resources, and execution strategy for " ++ product_name ++ "." }

/-- `create_budget_allocation_task(budget_analyst_agent, product_name, total_budget, marketing_objectives, campaign_timeline)`;
the total budget is rendered by the `,.0f` format spec, embedded as `commaFormat`. -/
def create_budget_allocation_task (budget_analyst_agent : Agent) (product_name : String)
    (total_budget : Nat) (marketing_objectives : String) (campaign_timeline : String) : CrewTask :=
  { description := "Allocate marketing budget for " ++ product_name ++ " campaign. " ++
      "Total budget: $" ++ commaFormat total_budget ++ ". " ++
      "Marketing objectives: " ++ marketing_objectives ++ ". " ++
      "Campaign timeline: " ++ campaign_timeline ++ ". " ++
      "\n\nYour budget allocation should include:\n" ++
      "1. Budget breakdown by channel (with percentages and dollar amounts)\n" ++
      "2. Budget allocation by campaign phase/timeline\n" ++
      "3. Cost estimates for key activities (advertising, content creation, tools, etc.)\n" ++
      "4. Expected ROI and performance metrics for each channel\n" ++
      "5. Budget optimization recommendations\n" ++
      "6. Contingency planning (10-15% buffer)\n" ++
      "7. Cost-saving opportunities\n\n" ++
      "Ensure budget allocation maximizes ROI and supports marketing objectives."
    agent := budget_analyst_agent
    expected_output := "A comprehensive budget allocation plan including channel breakdown, " ++
      "timeline allocation, cost estimates, ROI projections, and optimization recommendations " ++
      "for the " ++ product_name ++ " marketing campaign." }

/-! ## The parameters of `main` (lines 361–368 of the script) -/

structure Params where
  product_name : String
  product_category : String
  product_description : String
  target_audience : String
  unique_value_proposition : String
  marketing_objectives : String
  campaign_timeline : String
  total_budget : Nat
deriving DecidableEq, Repr

/-- The default keyword-argument values of `main`, which are also the
defaults re-stated in the `__main__` block (lines 540–549). -/
def defaultParams : Params :=
  { product_name := "AI-Powered Task Manager"
    product_category := "Productivity Software"
    product_description := "An AI-powered task management application that helps teams organize, prioritize, and complete work more efficiently"
    target_audience := "Small to medium-sized business teams and remote workers"
    unique_value_proposition := "Intelligent task prioritization using AI, seamless team collaboration, and automated workflow optimization"
    marketing_objectives := "Increase brand awareness, generate qualified leads, and drive product sign-ups"
    campaign_timeline := "3 months (Q1 launch campaign)"
    total_budget := 50000 }

/-! ## Clock, environment and events -/

/-- A `datetime.now()` reading, with the fields the script's two `strftime`
format strings use. -/
structure DateTime where
  year : Nat
  month : Nat
  day : Nat
  hour : Nat
  minute : Nat
  second : Nat
deriving DecidableEq, Repr

/-- Embedding of `strftime("%Y%m%d_%H%M%S")` (line 496). -/
def timestampFmt (t : DateTime) : String :=
  padZeros 4 t.year ++ padZeros 2 t.month ++ padZeros 2 t.day ++ "_" ++
  padZeros 2 t.hour ++ padZeros 2 t.minute ++ padZeros 2 t.second

/-- Embedding of `strftime("%Y-%m-%d %H:%M:%S")` (line 508). -/
def generatedFmt (t : DateTime) : String :=
  padZeros 4 t.year ++ "-" ++ padZeros 2 t.month ++ "-" ++ padZeros 2 t.day ++ " " ++
  padZeros 2 t.hour ++ ":" ++ padZeros 2 t.minute ++ ":" ++ padZeros 2 t.second

/-- The external world `main` interacts with.  `validate_config`,
`api_key`, `api_base`, `use_groq`, `model_name` and `config_summary` model
the imported `shared_config` module, which lives outside the script;
`llm` and `kickoff_raises` model the crewai `Crew.kickoff` call (`llm i
ctx` is the text stage `i` produces when handed `ctx`; `kickoff_raises =
some e` means the call raises an exception with text `e`); `report_raises`
models an exception raised inside the report-writing block of the `try`
(the `open` call or one of the `f.write` calls), and `open_created`
records, for such an exception, whether `open(...)` had already created
the file before it was raised — `open` can itself raise without creating
any file (nonexistent directory in the path, unwritable directory);
`now1` and `now2` are the two `datetime.now()` readings at lines 496 and
508. -/
structure Env where
  validate_config : Bool
  api_key : String
  api_base : String
  use_groq : Bool
  model_name : String
  config_summary : String
  script_dir : String
  llm : Nat → String → String
  kickoff_raises : Option String
  report_raises : Option String
  open_created : Bool
  now1 : DateTime
  now2 : DateTime

/-- The observable steps a run of the script performs, in program order. -/
inductive Event where
  | printed (line : String)
  | setEnvVar (name : String) (value : String)
  | agentCreated (a : Agent)
  | taskCreated (t : CrewTask)
  | crewFormed (c : Crew)
  | kickoffInvoked (c : Crew)
  | fileCreated (path : String)
  | fileWritten (path : String) (content : String)
  | tracebackPrinted
deriving DecidableEq, Repr

/-- How a run of `main` ends: a normal return, `exit(code)`, or an
exception that escapes. -/
inductive Outcome where
  | returned
  | exited (code : Nat)
  | raised (msg : String)
deriving DecidableEq, Repr

def isKickoffEvent : Event → Bool
  | Event.kickoffInvoked _ => true
  | _ => false

def isSetEnvEvent : Event → Bool
  | Event.setEnvVar _ _ => true
  | _ => false

def isAgentEvent : Event → Bool
  | Event.agentCreated _ => true
  | _ => false

def isTaskEvent : Event → Bool
  | Event.taskCreated _ => true
  | _ => false

def isCrewEvent : Event → Bool
  | Event.crewFormed _ => true
  | _ => false

def isFileEvent : Event → Bool
  | Event.fileCreated _ => true
  | Event.fileWritten _ _ => true
  | _ => false

/-! ## The kickoff model

The crewai library itself is not part of the repository, so the behaviour
of `Crew.kickoff` with `process="sequential"` is modelled from the spec. -/

/-- Modelled from the spec: missing is the crewai library's
`Crew.kickoff` with the sequential process, described as "a sequential
orchestration that hands the output of each role to the next".  Stage `i`
produces `llm i ctx` where `ctx` is the previous stage's output (the first
stage starts from the empty context); the outputs are listed in task
order. -/
def taskOutputsFrom (llm : Nat → String → String) : Nat → String → List CrewTask → List String
  | _, _, [] => []
  | i, ctx, _t :: ts => llm i ctx :: taskOutputsFrom llm (i + 1) (llm i ctx) ts

def taskOutputs (llm : Nat → String → String) (tasks : List CrewTask) : List String :=
  taskOutputsFrom llm 0 "" tasks

def concatOutputs : List String → String
  | [] => ""
  | s :: rest => s ++ concatOutputs rest

/-- Modelled from the spec: the value a successful `crew.kickoff()` returns
(once passed through `str`) is "the concatenated result" of the stages. -/
def crewKickoffResult (llm : Nat → String → String) (c : Crew) : String :=
  concatOutputs (taskOutputs llm c.tasks)

/-! ## The objects `main` builds (lines 412–475 of the script) -/

def agent1 (p : Params) : Agent := create_market_research_agent p.product_name p.product_category

def agent2 (p : Params) : Agent := create_content_strategist_agent p.product_name p.target_audience

def agent3 (p : Params) : Agent := create_channel_specialist_agent p.product_category p.target_audience

def agent4 (p : Params) : Agent := create_campaign_planner_agent p.product_name p.target_audience

def agent5 (p : Params) : Agent := create_budget_analyst_agent p.product_category

def task1 (p : Params) : CrewTask :=
  create_market_research_task (agent1 p) p.product_name p.product_category p.target_audience p.product_description

def task2 (p : Params) : CrewTask :=
  create_content_strategy_task (agent2 p) p.product_name p.product_description p.target_audience p.unique_value_proposition

def task3 (p : Params) : CrewTask :=
  create_channel_strategy_task (agent3 p) p.product_name p.product_category p.target_audience p.marketing_objectives

def task4 (p : Params) : CrewTask :=
  create_campaign_plan_task (agent4 p) p.product_name p.target_audience p.campaign_timeline p.marketing_objectives

def task5 (p : Params) : CrewTask :=
  create_budget_allocation_task (agent5 p) p.product_name p.total_budget p.marketing_objectives p.campaign_timeline

def builtAgents (p : Params) : List Agent :=
  [agent1 p, agent2 p, agent3 p, agent4 p, agent5 p]

def builtTasks (p : Params) : List CrewTask :=
  [task1 p, task2 p, task3 p, task4 p, task5 p]

/-- The `Crew(...)` constructed at lines 458–475. -/
def builtCrew (p : Params) : Crew :=
  { agents := builtAgents p
    tasks := builtTasks p
    verbose := true
    process := "sequential" }

/-! ## The trace of `main` (lines 361–533 of the script) -/

/-- Embedding of Python `"=" * 80`. -/
def eq80 : String := repeatStr "=" 80

/-- The banner and parameter prints at lines 383–395. -/
def headerEvents (p : Params) : List Event :=
  [Event.printed eq80,
   Event.printed "CrewAI Multi-Agent Marketing Strategy Development System",
   Event.printed eq80,
   Event.printed "",
   Event.printed ("📦 Product: " ++ p.product_name),
   Event.printed ("🏷️  Category: " ++ p.product_category),
   Event.printed ("🎯 Target Audience: " ++ p.target_audience),
   Event.printed ("💰 Budget: $" ++ commaFormat p.total_budget),
   Event.printed ("📅 Timeline: " ++ p.campaign_timeline),
   Event.printed "",
   Event.printed "🔍 Validating configuration..."]

/-- The environment-variable writes and configuration prints at lines
401–410; `Config.print_summary()` prints the summary the `shared_config`
module holds. -/
def configEvents (env : Env) : List Event :=
  [Event.setEnvVar "OPENAI_API_KEY" env.api_key,
   Event.setEnvVar "OPENAI_API_BASE" env.api_base] ++
  (if env.use_groq then [Event.setEnvVar "OPENAI_MODEL_NAME" env.model_name] else []) ++
  [Event.printed "✅ Configuration validated successfully!",
   Event.printed "",
   Event.printed env.config_summary,
   Event.printed ""]

/-- The agent-creation phase at lines 412–429. -/
def agentPhaseEvents (p : Params) : List Event :=
  [Event.printed "[1/5] Creating Market Research Analyst Agent...",
   Event.agentCreated (agent1 p),
   Event.printed "[2/5] Creating Content Strategist Agent...",
   Event.agentCreated (agent2 p),
   Event.printed "[3/5] Creating Marketing Channel Specialist Agent...",
   Event.agentCreated (agent3 p),
   Event.printed "[4/5] Creating Campaign Planner Agent...",
   Event.agentCreated (agent4 p),
   Event.printed "[5/5] Creating Marketing Budget Analyst Agent...",
   Event.agentCreated (agent5 p),
   Event.printed "\n✅ All agents created successfully!",
   Event.printed ""]

/-- The task-creation phase at lines 431–454. -/
def taskPhaseEvents (p : Params) : List Event :=
  [Event.printed "Creating tasks for the crew...",
   Event.taskCreated (task1 p),
   Event.taskCreated (task2 p),
   Event.taskCreated (task3 p),
   Event.taskCreated (task4 p),
   Event.taskCreated (task5 p),
   Event.printed "Tasks created successfully!",
   Event.printed ""]

/-- The crew-forming phase and start banner at lines 456–482. -/
def crewPhaseEvents (p : Params) : List Event :=
  [Event.printed "Forming the Marketing Strategy Crew...",
   Event.crewFormed (builtCrew p),
   Event.printed "Crew formed successfully!",
   Event.printed "",
   Event.printed eq80,
   Event.printed "Starting Marketing Strategy Development...",
   Event.printed eq80,
   Event.printed ""]

/-- Everything `main` does after validation up to and including the single
`crew.kickoff()` call. -/
def preKickEvents (p : Params) (env : Env) : List Event :=
  headerEvents p ++ configEvents env ++ agentPhaseEvents p ++ taskPhaseEvents p ++
  crewPhaseEvents p ++ [Event.kickoffInvoked (builtCrew p)]

/-- The `except` branch at lines 525–533: the error print, the three
troubleshooting hints, and `traceback.print_exc()`. -/
def errorEvents (e : String) : List Event :=
  [Event.printed ("\n❌ Error during crew execution: " ++ e),
   Event.printed "\n🔍 Troubleshooting:",
   Event.printed "   1. Verify OPENAI_API_KEY is set in parent directory .env file",
   Event.printed "   2. Check API key is valid and has sufficient credits",
   Event.printed "   3. Verify internet connection",
   Event.printed "",
   Event.tracebackPrinted]

/-- The completion banner at lines 488–492. -/
def completedBanner : List Event :=
  [Event.printed "",
   Event.printed eq80,
   Event.printed "✅ Marketing Strategy Development Completed Successfully!",
   Event.printed eq80,
   Event.printed ""]

/-- The confirmation prints at lines 515–523. -/
def savedEvents (path : String) : List Event :=
  [Event.printed ("✅ Marketing strategy saved to: " ++ path),
   Event.printed "",
   Event.printed "📋 Strategy includes:",
   Event.printed "   • Market research and competitive analysis",
   Event.printed "   • Content strategy and messaging framework",
   Event.printed "   • Channel strategy and recommendations",
   Event.printed "   • Detailed campaign plan with timeline",
   Event.printed "   • Budget allocation and ROI projections",
   Event.printed ""]

/-- The report path built at lines 495–497: the script's own directory
joined with `marketing_strategy_` then the product name with spaces
replaced by underscores and lowercased, an underscore, the
`%Y%m%d_%H%M%S` timestamp, and `.txt`. -/
def outputFilename (script_dir : String) (product_name : String) (t : DateTime) : String :=
  script_dir ++ "/marketing_strategy_" ++ pyLower (replaceSpaces product_name) ++ "_" ++
  timestampFmt t ++ ".txt"

/-- The report text written at lines 499–513. -/
def reportContent (p : Params) (result : String) (gen : DateTime) : String :=
  eq80 ++ "\n" ++
  "MARKETING STRATEGY REPORT\n" ++
  eq80 ++ "\n\n" ++
  "Product: " ++ p.product_name ++ "\n" ++
  "Category: " ++ p.product_category ++ "\n" ++
  "Target Audience: " ++ p.target_audience ++ "\n" ++
  "Budget: $" ++ commaFormat p.total_budget ++ "\n" ++
  "Timeline: " ++ p.campaign_timeline ++ "\n" ++
  "Generated: " ++ generatedFmt gen ++ "\n\n" ++
  eq80 ++ "\n" ++
  "COMPREHENSIVE MARKETING STRATEGY\n" ++
  eq80 ++ "\n\n" ++
  result ++
  "\n" ++ eq80 ++ "\n"

/-- The trace semantics of `main` (lines 361–533): the printed lines,
environment-variable writes, crewai object constructions, the single
`crew.kickoff()` call and the report write, together with how the call
ends.  `exit(1)` becomes `Outcome.exited 1`; the `try`/`except` block
around kickoff and the report write catches any exception (modelled by
`env.kickoff_raises` and `env.report_raises`), prints the error text,
hints and a traceback, and falls off the end of `main`, so those runs
still end in `Outcome.returned`.  When the report block raises, the file
exists only if `open` had already created it (`env.open_created`). -/
def main (p : Params) (env : Env) : List Event × Outcome :=
  if env.validate_config = false then
    (headerEvents p ++
       [Event.printed "❌ Configuration validation failed. Please set up your .env file."],
     Outcome.exited 1)
  else
    match env.kickoff_raises with
    | some e => (preKickEvents p env ++ errorEvents e, Outcome.returned)
    | none =>
      let result := crewKickoffResult env.llm (builtCrew p)
      let path := outputFilename env.script_dir p.product_name env.now1
      match env.report_raises with
      | none =>
        (preKickEvents p env ++ completedBanner ++
           [Event.fileCreated path, Event.fileWritten path (reportContent p result env.now2)] ++
           savedEvents path,
         Outcome.returned)
      | some e =>
        (preKickEvents p env ++ completedBanner ++
           (if env.open_created then [Event.fileCreated path] else []) ++
           errorEvents e,
         Outcome.returned)

/-! ## The `__main__` block (lines 536–560 of the script) -/

/-- How an invocation of the script ends: `main` is entered with the
parameters the block assembled; or `float(sys.argv[3])` raises
`ValueError` and the program dies before `main` is called; or the third
argument is one `float` accepts whose value (a fraction, an exponent
form, a sign, an infinity) lies outside the integral `Nat` budget model —
the program then runs `main` with that float budget, which the embedding
records without asserting a trace. -/
inductive ScriptResult where
  | ran (p : Params) (trace : List Event × Outcome)
  | ranFloatBudget (arg : String) (p : Params)
  | raisedValueError (arg : String)
deriving DecidableEq, Repr

/-- Argument handling of the `__main__` block: `kwargs` starts at the
defaults; when present, `sys.argv[1]` replaces the product name,
`sys.argv[2]` the category, and `sys.argv[3]` is parsed with `float` into
the total budget.  `args` is `sys.argv[1:]`.  A third argument that
`float` rejects raises an uncaught `ValueError` before `main` is
called; one it accepts never raises. -/
def runScript (args : List String) (env : Env) : ScriptResult :=
  let p0 := defaultParams
  let p1 := match args[0]? with
    | some a => { p0 with product_name := a }
    | none => p0
  let p2 := match args[1]? with
    | some a => { p1 with product_category := a }
    | none => p1
  match args[2]? with
  | none => ScriptResult.ran p2 (main p2 env)
  | some a =>
    if pyFloatAccepts a then
      match pyFloatValue a with
      | some b =>
        ScriptResult.ran { p2 with total_budget := b } (main { p2 with total_budget := b } env)
      | none => ScriptResult.ranFloatBudget a p2
    else ScriptResult.raisedValueError a

/-! ## Helper lemmas about digit strings and comma grouping -/

theorem digitChar_isDigit (m : Nat) (h : m < 10) : (Nat.digitChar m).isDigit = true := by
  interval_cases m <;> decide

theorem mem_toDigitsCore_ten (f : Nat) :
    ∀ (n : Nat) (l : List Char) (c : Char),
      c ∈ Nat.toDigitsCore 10 f n l → c.isDigit = true ∨ c ∈ l := by
  induction f with
  | zero => intro n l c hc; right; simpa [Nat.toDigitsCore] using hc
  | succ f ih =>
    intro n l c hc
    simp only [Nat.toDigitsCore] at hc
    by_cases hd : n / 10 = 0
    · rw [if_pos hd] at hc
      rcases List.mem_cons.mp hc with h1 | h2
      · exact Or.inl (h1 ▸ digitChar_isDigit _ (Nat.mod_lt _ (by omega)))
      · exact Or.inr h2
    · rw [if_neg hd] at hc
      rcases ih _ _ _ hc with h1 | h2
      · exact Or.inl h1
      · rcases List.mem_cons.mp h2 with h3 | h4
        · exact Or.inl (h3 ▸ digitChar_isDigit _ (Nat.mod_lt _ (by omega)))
        · exact Or.inr h4

theorem mem_repr_isDigit (n : Nat) (c : Char) (hc : c ∈ (Nat.repr n).data) :
    c.isDigit = true := by
  have hmem : c ∈ Nat.toDigitsCore 10 (n + 1) n [] := by
    simpa [Nat.repr, Nat.toDigits, List.asString] using hc
  rcases mem_toDigitsCore_ten _ _ _ _ hmem with h | h
  · exact h
  · simp at h

theorem mem_groupRev : ∀ (l : List Char) (c : Char), c ∈ groupRev l → c = ',' ∨ c ∈ l
  | [], c, hc => by simp [groupRev] at hc
  | [_a], c, hc => Or.inr (by simpa [groupRev] using hc)
  | [_a, _b], c, hc => Or.inr (by simpa [groupRev] using hc)
  | [_a, _b, _d], c, hc => Or.inr (by simpa [groupRev] using hc)
  | a :: b :: d :: e :: rest, c, hc => by
    simp only [groupRev, List.mem_cons] at hc
    rcases hc with h | h | h | h | h
    · exact Or.inr (by simp [h])
    · exact Or.inr (by simp [h])
    · exact Or.inr (by simp [h])
    · exact Or.inl h
    · rcases mem_groupRev (e :: rest) c h with h1 | h2
      · exact Or.inl h1
      · rcases List.mem_cons.mp h2 with h3 | h4
        · exact Or.inr (by simp [h3])
        · exact Or.inr (by simp [h4])

theorem filter_groupRev :
    ∀ l : List Char, (groupRev l).filter (fun c => c != ',') = l.filter (fun c => c != ',')
  | [] => rfl
  | [_a] => rfl
  | [_a, _b] => rfl
  | [_a, _b, _d] => rfl
  | a :: b :: d :: e :: rest => by
    have ih := filter_groupRev (e :: rest)
    simp only [groupRev, List.filter_cons] at ih ⊢
    simp [ih]

theorem commaFormat_digits (n : Nat) :
    (commaFormat n).data.filter (fun c => c != ',') = (Nat.repr n).data := by
  have h1 : (commaFormat n).data = (groupRev (Nat.repr n).data.reverse).reverse := rfl
  rw [h1, List.filter_reverse, filter_groupRev, List.filter_reverse, List.reverse_reverse]
  exact List.filter_eq_self.mpr fun c hc => by
    have hd := mem_repr_isDigit n c hc
    rcases eq_or_ne c ',' with rfl | hne
    · exact absurd hd (by decide)
    · simpa using hne

theorem commaFormat_no_dot (n : Nat) : '.' ∉ (commaFormat n).data := by
  intro hmem
  have h1 : '.' ∈ (groupRev (Nat.repr n).data.reverse).reverse := hmem
  rw [List.mem_reverse] at h1
  rcases mem_groupRev _ _ h1 with h | h
  · exact absurd h (by decide)
  · rw [List.mem_reverse] at h
    exact absurd (mem_repr_isDigit n '.' h) (by decide)

/-- `small` occurs verbatim inside `big`. -/
def containsStr (big small : String) : Prop :=
  ∃ u v, big = u ++ small ++ v

/-! ## Claims about the tool functions -/

/-- C5: each of the four tool functions is pure and deterministic: two runs
with equal arguments return the identical string.  In the embedding every
tool is a function of its arguments alone — mirroring the source, whose
bodies are single f-string returns — so no retrieval, external data, or
I/O can influence the result. -/
theorem tools_pure_deterministic
    (pc ta pn ch pc2 ta2 pn2 ch2 : String) (b b2 : Nat)
    (hpc : pc = pc2) (hta : ta = ta2) (hpn : pn = pn2) (hch : ch = ch2) (hb : b = b2) :
    research_market_trends pc ta = research_market_trends pc2 ta2 ∧
    analyze_competitors pn pc = analyze_competitors pn2 pc2 ∧
    research_marketing_channels pc ta = research_marketing_channels pc2 ta2 ∧
    calculate_marketing_metrics b ch = calculate_marketing_metrics b2 ch2 := by
  subst hpc hta hpn hch hb
  exact ⟨rfl, rfl, rfl, rfl⟩

/-- C5 witness: the determinism theorem applied at concrete arguments. -/
theorem tools_pure_deterministic_witness :
    research_market_trends "Productivity Software" "remote workers" =
      research_market_trends "Productivity Software" "remote workers" ∧
    analyze_competitors "AI-Powered Task Manager" "Productivity Software" =
      analyze_competitors "AI-Powered Task Manager" "Productivity Software" ∧
    research_marketing_channels "Productivity Software" "remote workers" =
      research_marketing_channels "Productivity Software" "remote workers" ∧
    calculate_marketing_metrics 50000 "social media" =
      calculate_marketing_metrics 50000 "social media" :=
  tools_pure_deterministic "Productivity Software" "remote workers" "AI-Powered Task Manager"
    "social media" "Productivity Software" "remote workers" "AI-Powered Task Manager"
    "social media" 50000 50000 rfl rfl rfl rfl rfl

/-- C6: every tool's output contains each of its string arguments verbatim,
and `calculate_marketing_metrics` renders its budget as a dollar amount with
comma-grouped thousands and no decimal places: `"$"` immediately followed by
`commaFormat budget` occurs in the output, where stripping the commas from
`commaFormat budget` leaves exactly the decimal digits of the budget and no
decimal point occurs in it. -/
theorem tools_format_arguments (pc ta pn ch : String) (b : Nat) :
    containsStr (research_market_trends pc ta) pc ∧
    containsStr (research_market_trends pc ta) ta ∧
    containsStr (analyze_competitors pn pc) pn ∧
    containsStr (analyze_competitors pn pc) pc ∧
    containsStr (research_marketing_channels pc ta) pc ∧
    containsStr (research_marketing_channels pc ta) ta ∧
    containsStr (calculate_marketing_metrics b ch) ch ∧
    containsStr (calculate_marketing_metrics b ch) ("$" ++ commaFormat b) ∧
    (commaFormat b).data.filter (fun c => c != ',') = (Nat.repr b).data ∧
    '.' ∉ (commaFormat b).data := by
  have hdollar : "\n    Analysis task: Calculate marketing metrics for $" =
      "\n    Analysis task: Calculate marketing metrics for " ++ "$" := by decide
  refine ⟨?_, ?_, ?_, ?_, ?_, ?_, ?_, ?_, commaFormat_digits b, commaFormat_no_dot b⟩
  · exact ⟨"\n    Research task: Analyze market trends for ",
      " targeting " ++ ta ++ ".\n    \n    Please research and provide:\n    1. Current market size and growth projections\n    2. Key consumer trends and preferences\n    3. Emerging market opportunities\n    4. Seasonal patterns and buying behaviors\n    5. Demographic and psychographic insights\n    6. Market challenges and barriers\n    \n    Focus on actionable insights for marketing strategy development.\n    ",
      by simp [research_market_trends, String.append_assoc]⟩
  · exact ⟨"\n    Research task: Analyze market trends for " ++ pc ++ " targeting ",
      ".\n    \n    Please research and provide:\n    1. Current market size and growth projections\n    2. Key consumer trends and preferences\n    3. Emerging market opportunities\n    4. Seasonal patterns and buying behaviors\n    5. Demographic and psychographic insights\n    6. Market challenges and barriers\n    \n    Focus on actionable insights for marketing strategy development.\n    ",
      by simp [research_market_trends, String.append_assoc]⟩
  · exact ⟨"\n    Research task: Analyze competitors for ",
      " in " ++ pc ++ ".\n    \n    Please research and provide:\n    1. Main competitors and their market positioning\n    2. Competitor marketing messages and value propositions\n    3. Competitor channel strategies (social media, advertising, content)\n    4. Competitor pricing strategies\n    5. Competitor strengths and weaknesses\n    6. Market gaps and differentiation opportunities\n    \n    Focus on insights that inform competitive marketing strategy.\n    ",
      by simp [analyze_competitors, String.append_assoc]⟩
  · exact ⟨"\n    Research task: Analyze competitors for " ++ pn ++ " in ",
      ".\n    \n    Please research and provide:\n    1. Main competitors and their market positioning\n    2. Competitor marketing messages and value propositions\n    3. Competitor channel strategies (social media, advertising, content)\n    4. Competitor pricing strategies\n    5. Competitor strengths and weaknesses\n    6. Market gaps and differentiation opportunities\n    \n    Focus on insights that inform competitive marketing strategy.\n    ",
      by simp [analyze_competitors, String.append_assoc]⟩
  · exact ⟨"\n    Research task: Identify best marketing channels for ",
      " targeting " ++ ta ++ ".\n    \n    Please research and provide:\n    1. Most effective channels for this audience (social media, email, SEO, paid ads, etc.)\n    2. Channel performance benchmarks and costs\n    3. Best practices for each channel\n    4. Channel integration strategies\n    5. Emerging channel opportunities\n    6. Channel-specific content requirements\n    \n    Focus on channels that deliver the best ROI for this product and audience.\n    ",
      by simp [research_marketing_channels, String.append_assoc]⟩
  · exact ⟨"\n    Research task: Identify best marketing channels for " ++ pc ++ " targeting ",
      ".\n    \n    Please research and provide:\n    1. Most effective channels for this audience (social media, email, SEO, paid ads, etc.)\n    2. Channel performance benchmarks and costs\n    3. Best practices for each channel\n    4. Channel integration strategies\n    5. Emerging channel opportunities\n    6. Channel-specific content requirements\n    \n    Focus on channels that deliver the best ROI for this product and audience.\n    ",
      by simp [research_marketing_channels, String.append_assoc]⟩
  · exact ⟨"\n    Analysis task: Calculate marketing metrics for $" ++ commaFormat b ++ " budget across ",
      ".\n    \n    Please provide:\n    1. Budget allocation recommendations per channel\n    2. Expected reach and impressions\n    3. Estimated cost per acquisition (CPA)\n    4. Projected conversion rates\n    5. ROI estimates and benchmarks\n    6. Performance tracking recommendations\n    \n    Use industry benchmarks and realistic projections.\n    ",
      by simp [calculate_marketing_metrics, String.append_assoc]⟩
  · refine ⟨"\n    Analysis task: Calculate marketing metrics for ",
      " budget across " ++ ch ++ ".\n    \n    Please provide:\n    1. Budget allocation recommendations per channel\n    2. Expected reach and impressions\n    3. Estimated cost per acquisition (CPA)\n    4. Projected conversion rates\n    5. ROI estimates and benchmarks\n    6. Performance tracking recommendations\n    \n    Use industry benchmarks and realistic projections.\n    ", ?_⟩
    rw [calculate_marketing_metrics]
    simp only [String.append_assoc]
    rw [hdollar]
    simp only [String.append_assoc]

/-- C6 witness: the formatting theorem instantiated at concrete inputs. -/
theorem tools_format_arguments_witness :
    containsStr (research_market_trends "Productivity Software" "remote workers")
      "Productivity Software" ∧
    containsStr (research_market_trends "Productivity Software" "remote workers")
      "remote workers" ∧
    containsStr (analyze_competitors "AI-Powered Task Manager" "Productivity Software")
      "AI-Powered Task Manager" ∧
    containsStr (analyze_competitors "AI-Powered Task Manager" "Productivity Software")
      "Productivity Software" ∧
    containsStr (research_marketing_channels "Productivity Software" "remote workers")
      "Productivity Software" ∧
    containsStr (research_marketing_channels "Productivity Software" "remote workers")
      "remote workers" ∧
    containsStr (calculate_marketing_metrics 50000 "social media") "social media" ∧
    containsStr (calculate_marketing_metrics 50000 "social media") ("$" ++ commaFormat 50000) ∧
    (commaFormat 50000).data.filter (fun c => c != ',') = (Nat.repr 50000).data ∧
    '.' ∉ (commaFormat 50000).data :=
  tools_format_arguments "Productivity Software" "remote workers" "AI-Powered Task Manager"
    "social media" 50000

/-! ## Concrete environments used to instantiate the trace theorems -/

def sampleTime : DateTime :=
  { year := 2026, month := 10, day := 12, hour := 9, minute := 30, second := 5 }

def envOk : Env :=
  { validate_config := true
    api_key := "key"
    api_base := "base"
    use_groq := false
    model_name := "model"
    config_summary := "summary"
    script_dir := "/repo/crewai"
    llm := fun i ctx => "output of stage " ++ Nat.repr i ++ " on " ++ ctx
    kickoff_raises := none
    report_raises := none
    open_created := true
    now1 := sampleTime
    now2 := sampleTime }

def envFail : Env := { envOk with validate_config := false }

def envRaise : Env := { envOk with kickoff_raises := some "boom" }

def envWriteFail : Env := { envOk with report_raises := some "disk full", open_created := true }

def envOpenFail : Env :=
  { envOk with report_raises := some "No such file or directory", open_created := false }

/-! ## Helper count lemmas over the trace blocks -/

theorem countP_kickoff_preKick (p : Params) (env : Env) :
    (preKickEvents p env).countP isKickoffEvent = 1 := by
  cases hg : env.use_groq <;>
    simp [preKickEvents, headerEvents, configEvents, agentPhaseEvents, taskPhaseEvents,
      crewPhaseEvents, hg, List.countP_append, List.countP_cons, isKickoffEvent]

theorem countP_kickoff_errorEvents (e : String) :
    (errorEvents e).countP isKickoffEvent = 0 := by
  simp [errorEvents, List.countP_cons, isKickoffEvent]

/-! ## Claims about the trace of `main` -/

/-- C8: when `validate_config()` returns false, `main` terminates the run
with exit code 1, and its trace contains no environment-variable write, no
agent, task or crew construction, no kickoff, and no file event — failure
is detected before any of those steps. -/
theorem validate_failure_exits_early (p : Params) (env : Env)
    (h : env.validate_config = false) :
    (main p env).2 = Outcome.exited 1 ∧
    (main p env).1.countP isSetEnvEvent = 0 ∧
    (main p env).1.countP isAgentEvent = 0 ∧
    (main p env).1.countP isTaskEvent = 0 ∧
    (main p env).1.countP isCrewEvent = 0 ∧
    (main p env).1.countP isKickoffEvent = 0 ∧
    (main p env).1.countP isFileEvent = 0 := by
  simp [main, h, headerEvents, List.countP_append, List.countP_cons,
    isSetEnvEvent, isAgentEvent, isTaskEvent, isCrewEvent, isKickoffEvent, isFileEvent]

/-- C8 witness: the early-exit theorem at a failing environment. -/
theorem validate_failure_exits_early_witness :
    (main defaultParams envFail).2 = Outcome.exited 1 ∧
    (main defaultParams envFail).1.countP isSetEnvEvent = 0 ∧
    (main defaultParams envFail).1.countP isAgentEvent = 0 ∧
    (main defaultParams envFail).1.countP isTaskEvent = 0 ∧
    (main defaultParams envFail).1.countP isCrewEvent = 0 ∧
    (main defaultParams envFail).1.countP isKickoffEvent = 0 ∧
    (main defaultParams envFail).1.countP isFileEvent = 0 :=
  validate_failure_exits_early defaultParams envFail rfl

/-- C9 counterexample: after a successful kickoff the `open(...)` call of
the report write can itself raise without creating any file — here the
report path points into a nonexistent directory — so "a report file is
created if and only if `crew.kickoff()` returns without raising" fails at
this input: kickoff returned without raising and the run ended normally,
yet no file event occurred. -/
theorem report_created_iff_kickoff_refuted :
    envOpenFail.kickoff_raises = none ∧
    (main defaultParams envOpenFail).2 = Outcome.returned ∧
    ¬ (∃ path, Event.fileCreated path ∈ (main defaultParams envOpenFail).1) := by
  refine ⟨rfl, by simp [main, envOpenFail, envOk], ?_⟩
  rintro ⟨path, hpath⟩
  revert hpath
  simp [main, envOpenFail, envOk, preKickEvents, headerEvents, configEvents,
    agentPhaseEvents, taskPhaseEvents, crewPhaseEvents, completedBanner, errorEvents,
    List.mem_append, List.mem_cons]

/-- C9 (amended): with configuration valid, a report file is created only
if `crew.kickoff()` returns without raising — when kickoff raises, the
open/write code is never reached and the trace has no file event at all —
and when kickoff returns and the report open/write raises no exception,
the file is created.  (The unamended iff fails in the reverse direction:
`open` can raise after a successful kickoff without creating a file, as
`report_created_iff_kickoff_refuted` shows.) -/
theorem report_atomic_wrt_kickoff (p : Params) (env : Env)
    (h : env.validate_config = true) :
    ((∃ path, Event.fileCreated path ∈ (main p env).1) → env.kickoff_raises = none) ∧
    (env.kickoff_raises = none → env.report_raises = none →
      ∃ path, Event.fileCreated path ∈ (main p env).1) ∧
    (∀ e, env.kickoff_raises = some e → (main p env).1.countP isFileEvent = 0) := by
  cases hk : env.kickoff_raises with
  | none =>
    refine ⟨fun _ => rfl, fun _ hr => ?_, fun e he => by simp [hk] at he⟩
    refine ⟨outputFilename env.script_dir p.product_name env.now1, ?_⟩
    simp [main, h, hk, hr, List.mem_append, List.mem_cons]
  | some e =>
    refine ⟨fun ⟨path, hpath⟩ => absurd hpath ?_,
      fun hnone => by simp [hk] at hnone, ?_⟩
    · cases hg : env.use_groq <;>
        simp [main, h, hk, preKickEvents, headerEvents, configEvents, agentPhaseEvents,
          taskPhaseEvents, crewPhaseEvents, errorEvents, hg, List.mem_append, List.mem_cons]
    · intro e2 _
      cases hg : env.use_groq <;>
        simp [main, h, hk, preKickEvents, headerEvents, configEvents, agentPhaseEvents,
          taskPhaseEvents, crewPhaseEvents, errorEvents, hg, List.countP_append,
          List.countP_cons, isFileEvent]

/-- C9 witness: the amended atomicity theorem at a successful concrete
environment. -/
theorem report_atomic_wrt_kickoff_witness :
    ((∃ path, Event.fileCreated path ∈ (main defaultParams envOk).1) →
      envOk.kickoff_raises = none) ∧
    (envOk.kickoff_raises = none → envOk.report_raises = none →
      ∃ path, Event.fileCreated path ∈ (main defaultParams envOk).1) ∧
    (∀ e, envOk.kickoff_raises = some e →
      (main defaultParams envOk).1.countP isFileEvent = 0) :=
  report_atomic_wrt_kickoff defaultParams envOk rfl

/-- C2: any exception inside the try block — raised by `crew.kickoff()` or
anywhere in the subsequent report writing (the `open` call or the writes)
— reaches only the single catch-and-print handler: the trace ends with
the error print, the three troubleshooting hints and a traceback
(`errorEvents`), the exception is not re-raised (`main` still ends in
`Outcome.returned`), and kickoff is not retried (it is invoked exactly
once). -/
theorem exception_catch_and_print (p : Params) (env : Env)
    (h : env.validate_config = true) :
    (∀ e, env.kickoff_raises = some e →
      (main p env).2 = Outcome.returned ∧
      errorEvents e <:+ (main p env).1 ∧
      (main p env).1.countP isKickoffEvent = 1) ∧
    (∀ e, env.kickoff_raises = none → env.report_raises = some e →
      (main p env).2 = Outcome.returned ∧
      errorEvents e <:+ (main p env).1 ∧
      (main p env).1.countP isKickoffEvent = 1) := by
  constructor
  · intro e he
    refine ⟨by simp [main, h, he], ?_, ?_⟩
    · refine ⟨preKickEvents p env, ?_⟩
      simp [main, h, he]
    · simp [main, h, he, List.countP_append, countP_kickoff_preKick,
        countP_kickoff_errorEvents]
  · intro e hk hre
    refine ⟨by simp [main, h, hk, hre], ?_, ?_⟩
    · refine ⟨preKickEvents p env ++ completedBanner ++
        (if env.open_created then
          [Event.fileCreated (outputFilename env.script_dir p.product_name env.now1)]
        else []), ?_⟩
      simp [main, h, hk, hre]
    · cases hoc : env.open_created <;>
        simp [main, h, hk, hre, hoc, List.countP_append, countP_kickoff_preKick,
          countP_kickoff_errorEvents, completedBanner, List.countP_cons, isKickoffEvent]

/-- C2 witness: the handler theorem at an environment whose kickoff raises
the exception "boom". -/
theorem exception_catch_and_print_witness :
    (main defaultParams envRaise).2 = Outcome.returned ∧
    errorEvents "boom" <:+ (main defaultParams envRaise).1 ∧
    (main defaultParams envRaise).1.countP isKickoffEvent = 1 :=
  (exception_catch_and_print defaultParams envRaise rfl).1 "boom" rfl

theorem countP_crew_preKick (p : Params) (env : Env) :
    (preKickEvents p env).countP isCrewEvent = 1 := by
  cases hg : env.use_groq <;>
    simp [preKickEvents, headerEvents, configEvents, agentPhaseEvents, taskPhaseEvents,
      crewPhaseEvents, hg, List.countP_append, List.countP_cons, isCrewEvent]

/-- C1: with configuration valid, the run is the fixed five-step linear
pipeline: the crew is formed exactly once, with exactly the five tasks —
market research, content strategy, channel strategy, campaign plan, budget
allocation — in that order under `process="sequential"`; `crew.kickoff()`
is invoked exactly once (no retry and no second concurrent invocation);
and the kickoff model runs the five stages in that order, handing each
stage's output to the next. -/
theorem pipeline_five_step_linear (p : Params) (env : Env)
    (h : env.validate_config = true) :
    (main p env).1.countP isKickoffEvent = 1 ∧
    (main p env).1.countP isCrewEvent = 1 ∧
    Event.crewFormed (builtCrew p) ∈ (main p env).1 ∧
    Event.kickoffInvoked (builtCrew p) ∈ (main p env).1 ∧
    (builtCrew p).process = "sequential" ∧
    (builtCrew p).tasks = [task1 p, task2 p, task3 p, task4 p, task5 p] ∧
    taskOutputs env.llm (builtCrew p).tasks =
      [env.llm 0 "",
        env.llm 1 (env.llm 0 ""),
        env.llm 2 (env.llm 1 (env.llm 0 "")),
        env.llm 3 (env.llm 2 (env.llm 1 (env.llm 0 ""))),
        env.llm 4 (env.llm 3 (env.llm 2 (env.llm 1 (env.llm 0 ""))))] := by
  refine ⟨?_, ?_, ?_, ?_, rfl, rfl, ?_⟩
  · cases hk : env.kickoff_raises with
    | some e =>
      simp [main, h, hk, List.countP_append, countP_kickoff_preKick, countP_kickoff_errorEvents]
    | none =>
      cases hre : env.report_raises with
      | none =>
        simp [main, h, hk, hre, List.countP_append, countP_kickoff_preKick,
          countP_kickoff_errorEvents, completedBanner, savedEvents, List.countP_cons,
          isKickoffEvent]
      | some e =>
        cases hoc : env.open_created <;>
          simp [main, h, hk, hre, hoc, List.countP_append, countP_kickoff_preKick,
            countP_kickoff_errorEvents, completedBanner, List.countP_cons, isKickoffEvent]
  · cases hk : env.kickoff_raises with
    | some e =>
      simp [main, h, hk, List.countP_append, countP_crew_preKick, errorEvents,
        List.countP_cons, isCrewEvent]
    | none =>
      cases hre : env.report_raises with
      | none =>
        simp [main, h, hk, hre, List.countP_append, countP_crew_preKick, errorEvents,
          completedBanner, savedEvents, List.countP_cons, isCrewEvent]
      | some e =>
        cases hoc : env.open_created <;>
          simp [main, h, hk, hre, hoc, List.countP_append, countP_crew_preKick, errorEvents,
            completedBanner, List.countP_cons, isCrewEvent]
  · cases hk : env.kickoff_raises with
    | some e =>
      simp [main, h, hk, preKickEvents, crewPhaseEvents, List.mem_append, List.mem_cons]
    | none =>
      cases hre : env.report_raises <;>
        simp [main, h, hk, hre, preKickEvents, crewPhaseEvents, List.mem_append, List.mem_cons]
  · cases hk : env.kickoff_raises with
    | some e =>
      simp [main, h, hk, preKickEvents, List.mem_append, List.mem_cons]
    | none =>
      cases hre : env.report_raises <;>
        simp [main, h, hk, hre, preKickEvents, List.mem_append, List.mem_cons]
  · simp [builtCrew, builtTasks, taskOutputs, taskOutputsFrom]

/-- C1 witness: the pipeline theorem at a successful concrete run. -/
theorem pipeline_five_step_linear_witness :
    (main defaultParams envOk).1.countP isKickoffEvent = 1 ∧
    (main defaultParams envOk).1.countP isCrewEvent = 1 ∧
    Event.crewFormed (builtCrew defaultParams) ∈ (main defaultParams envOk).1 ∧
    Event.kickoffInvoked (builtCrew defaultParams) ∈ (main defaultParams envOk).1 ∧
    (builtCrew defaultParams).process = "sequential" ∧
    (builtCrew defaultParams).tasks =
      [task1 defaultParams, task2 defaultParams, task3 defaultParams, task4 defaultParams,
        task5 defaultParams] ∧
    taskOutputs envOk.llm (builtCrew defaultParams).tasks =
      [envOk.llm 0 "",
        envOk.llm 1 (envOk.llm 0 ""),
        envOk.llm 2 (envOk.llm 1 (envOk.llm 0 "")),
        envOk.llm 3 (envOk.llm 2 (envOk.llm 1 (envOk.llm 0 ""))),
        envOk.llm 4 (envOk.llm 3 (envOk.llm 2 (envOk.llm 1 (envOk.llm 0 ""))))] :=
  pipeline_five_step_linear defaultParams envOk rfl

/-- C4: the crew is composed of exactly the five agents carrying the five
role prompts — Market Research Analyst, Content Strategist, Marketing
Channel Specialist, Campaign Planner, Marketing Budget Analyst — in that
order, each created with `allow_delegation=False`, and the five tasks are
paired positionally with them: task `i` is assigned to agent `i`. -/
theorem crew_five_agents_paired (p : Params) (env : Env)
    (h : env.validate_config = true) :
    Event.crewFormed (builtCrew p) ∈ (main p env).1 ∧
    (builtCrew p).agents.map Agent.role =
      ["Market Research Analyst", "Content Strategist", "Marketing Channel Specialist",
        "Campaign Planner", "Marketing Budget Analyst"] ∧
    (∀ a ∈ (builtCrew p).agents, a.allow_delegation = false) ∧
    (builtCrew p).agents.length = 5 ∧
    (builtCrew p).tasks.length = 5 ∧
    (builtCrew p).tasks.map CrewTask.agent = (builtCrew p).agents := by
  refine ⟨?_, rfl, ?_, rfl, rfl, rfl⟩
  · cases hk : env.kickoff_raises with
    | some e =>
      simp [main, h, hk, preKickEvents, crewPhaseEvents, List.mem_append, List.mem_cons]
    | none =>
      cases hre : env.report_raises <;>
        simp [main, h, hk, hre, preKickEvents, crewPhaseEvents, List.mem_append, List.mem_cons]
  · intro a ha
    simp only [builtCrew, builtAgents, List.mem_cons, List.not_mem_nil, or_false] at ha
    rcases ha with rfl | rfl | rfl | rfl | rfl <;> rfl

/-- C4 witness: the pairing theorem at a concrete run. -/
theorem crew_five_agents_paired_witness :
    Event.crewFormed (builtCrew defaultParams) ∈ (main defaultParams envOk).1 ∧
    (builtCrew defaultParams).agents.map Agent.role =
      ["Market Research Analyst", "Content Strategist", "Marketing Channel Specialist",
        "Campaign Planner", "Marketing Budget Analyst"] ∧
    (∀ a ∈ (builtCrew defaultParams).agents, a.allow_delegation = false) ∧
    (builtCrew defaultParams).agents.length = 5 ∧
    (builtCrew defaultParams).tasks.length = 5 ∧
    (builtCrew defaultParams).tasks.map CrewTask.agent = (builtCrew defaultParams).agents :=
  crew_five_agents_paired defaultParams envOk rfl

theorem containsStr_concatOutputs {s : String} :
    ∀ parts : List String, s ∈ parts → containsStr (concatOutputs parts) s
  | t :: rest, hmem => by
    rcases List.mem_cons.mp hmem with rfl | hrest
    · exact ⟨"", concatOutputs rest, by simp [concatOutputs, String.append_assoc]⟩
    · obtain ⟨u, v, huv⟩ := containsStr_concatOutputs rest hrest
      exact ⟨t ++ u, v, by simp [concatOutputs, huv, String.append_assoc]⟩

theorem containsStr_reportContent (p : Params) (gen : DateTime) {R s : String}
    (h : containsStr R s) : containsStr (reportContent p R gen) s := by
  obtain ⟨u, v, rfl⟩ := h
  refine ⟨eq80 ++ "\n" ++ "MARKETING STRATEGY REPORT\n" ++ eq80 ++ "\n\n" ++
      "Product: " ++ p.product_name ++ "\n" ++
      "Category: " ++ p.product_category ++ "\n" ++
      "Target Audience: " ++ p.target_audience ++ "\n" ++
      "Budget: $" ++ commaFormat p.total_budget ++ "\n" ++
      "Timeline: " ++ p.campaign_timeline ++ "\n" ++
      "Generated: " ++ generatedFmt gen ++ "\n\n" ++
      eq80 ++ "\n" ++ "COMPREHENSIVE MARKETING STRATEGY\n" ++ eq80 ++ "\n\n" ++ u,
    v ++ ("\n" ++ eq80 ++ "\n"), ?_⟩
  simp [reportContent, String.append_assoc]

/-- C3: when the pipeline completes without exception, the report file is
written with a header carrying the product name, category, target
audience, budget, timeline and generation time, followed by the combined
output of all five stages: the written content is exactly the header
formula around the concatenated stage outputs, and each of the five
chained stage outputs occurs verbatim in it. -/
theorem report_contains_all_stages (p : Params) (env : Env)
    (h : env.validate_config = true) (hk : env.kickoff_raises = none)
    (hr : env.report_raises = none) :
    ∃ path content,
      Event.fileWritten path content ∈ (main p env).1 ∧
      content =
        eq80 ++ "\n" ++ "MARKETING STRATEGY REPORT\n" ++ eq80 ++ "\n\n" ++
        "Product: " ++ p.product_name ++ "\n" ++
        "Category: " ++ p.product_category ++ "\n" ++
        "Target Audience: " ++ p.target_audience ++ "\n" ++
        "Budget: $" ++ commaFormat p.total_budget ++ "\n" ++
        "Timeline: " ++ p.campaign_timeline ++ "\n" ++
        "Generated: " ++ generatedFmt env.now2 ++ "\n\n" ++
        eq80 ++ "\n" ++ "COMPREHENSIVE MARKETING STRATEGY\n" ++ eq80 ++ "\n\n" ++
        concatOutputs (taskOutputs env.llm (builtTasks p)) ++ "\n" ++ eq80 ++ "\n" ∧
      containsStr content (env.llm 0 "") ∧
      containsStr content (env.llm 1 (env.llm 0 "")) ∧
      containsStr content (env.llm 2 (env.llm 1 (env.llm 0 ""))) ∧
      containsStr content (env.llm 3 (env.llm 2 (env.llm 1 (env.llm 0 "")))) ∧
      containsStr content (env.llm 4 (env.llm 3 (env.llm 2 (env.llm 1 (env.llm 0 ""))))) := by
  refine ⟨outputFilename env.script_dir p.product_name env.now1,
    reportContent p (crewKickoffResult env.llm (builtCrew p)) env.now2, ?_, ?_, ?_, ?_, ?_, ?_, ?_⟩
  · simp [main, h, hk, hr, List.mem_append, List.mem_cons]
  · simp [reportContent, crewKickoffResult, builtCrew]
  all_goals
    refine containsStr_reportContent p env.now2 (containsStr_concatOutputs _ ?_)
  all_goals
    simp [crewKickoffResult, builtCrew, builtTasks, taskOutputs, taskOutputsFrom, List.mem_cons]

/-- C3 witness: the report-contents theorem at a successful concrete run. -/
theorem report_contains_all_stages_witness :
    ∃ path content,
      Event.fileWritten path content ∈ (main defaultParams envOk).1 ∧
      content =
        eq80 ++ "\n" ++ "MARKETING STRATEGY REPORT\n" ++ eq80 ++ "\n\n" ++
        "Product: " ++ defaultParams.product_name ++ "\n" ++
        "Category: " ++ defaultParams.product_category ++ "\n" ++
        "Target Audience: " ++ defaultParams.target_audience ++ "\n" ++
        "Budget: $" ++ commaFormat defaultParams.total_budget ++ "\n" ++
        "Timeline: " ++ defaultParams.campaign_timeline ++ "\n" ++
        "Generated: " ++ generatedFmt envOk.now2 ++ "\n\n" ++
        eq80 ++ "\n" ++ "COMPREHENSIVE MARKETING STRATEGY\n" ++ eq80 ++ "\n\n" ++
        concatOutputs (taskOutputs envOk.llm (builtTasks defaultParams)) ++ "\n" ++ eq80 ++ "\n" ∧
      containsStr content (envOk.llm 0 "") ∧
      containsStr content (envOk.llm 1 (envOk.llm 0 "")) ∧
      containsStr content (envOk.llm 2 (envOk.llm 1 (envOk.llm 0 ""))) ∧
      containsStr content (envOk.llm 3 (envOk.llm 2 (envOk.llm 1 (envOk.llm 0 "")))) ∧
      containsStr content (envOk.llm 4 (envOk.llm 3 (envOk.llm 2 (envOk.llm 1 (envOk.llm 0 ""))))) :=
  report_contains_all_stages defaultParams envOk rfl rfl rfl

example : commaFormat 50000 = "50,000" := by decide
example : commaFormat 1234567 = "1,234,567" := by decide
example : commaFormat 999 = "999" := by decide
example : commaFormat 0 = "0" := by decide
example : padZeros 2 7 = "07" := by decide
example : padZeros 4 2026 = "2026" := by decide
example : pyLower "AI-Powered Task Manager" = "ai-powered task manager" := by decide
example : replaceSpaces "AI-Powered Task Manager" = "AI-Powered_Task_Manager" := by decide

example : pyFloatAccepts "50000" = true := by decide
example : pyFloatAccepts "0.5" = true := by decide
example : pyFloatAccepts "-5" = true := by decide
example : pyFloatAccepts "1e3" = true := by decide
example : pyFloatAccepts " 42 " = true := by decide
example : pyFloatAccepts "1_000" = true := by decide
example : pyFloatAccepts "inf" = true := by decide
example : pyFloatAccepts "Infinity" = true := by decide
example : pyFloatAccepts "nan" = true := by decide
example : pyFloatAccepts ".5" = true := by decide
example : pyFloatAccepts "1." = true := by decide
example : pyFloatAccepts "+1.5e-3" = true := by decide
example : pyFloatAccepts "1_000.000_1" = true := by decide
example : pyFloatAccepts "" = false := by decide
example : pyFloatAccepts "abc" = false := by decide
example : pyFloatAccepts "." = false := by decide
example : pyFloatAccepts "1__0" = false := by decide
example : pyFloatAccepts "1_" = false := by decide
example : pyFloatAccepts "_1" = false := by decide
example : pyFloatAccepts "1_.5" = false := by decide
example : pyFloatAccepts "1e" = false := by decide
example : pyFloatAccepts "- 5" = false := by decide
example : pyFloatAccepts "nonsense" = false := by decide

example : pyFloatValue "50000" = some 50000 := by decide
example : pyFloatValue "1_000" = some 1000 := by decide
example : pyFloatValue " 42 " = some 42 := by decide
example : pyFloatValue "+7" = some 7 := by decide
example : pyFloatValue "0.5" = none := by decide
example : pyFloatValue "-5" = none := by decide
example : pyFloatValue "inf" = none := by decide
example : pyFloatValue "abc" = none := by decide

end MarketingStrategy
